import Mathlib

/-!
Verification of the authentication core of `personal-backend`
(`auth/usecase/auth_usecase.go`, newest revision, together with the MySQL
account repository and the domain types). The Go code is embedded shallowly:

* machine state (`account` table, `profile` table, Redis session store) is an
  explicit `World` value threaded through every operation;
* nondeterministic inputs of an operation run (the clock, the configured JWT
  secret, freshly generated salts and UUIDs, injected failures of the mail
  helper and of Redis writes/deletes) are collected in an `Env` record;
* a signed JWT is embedded as its parsed content: the claim set it carries
  plus the key it was signed with.  HS256 signing of a fixed claim set under a
  fixed key is deterministic and the serialized string determines claims and
  key, so string equality of token strings coincides with equality of these
  values; the blank string "" (never a well-formed signed token) is
  represented by `Option.none` in fields of token-string type;
* bcrypt (`golang.org/x/crypto/bcrypt`) is idealized as a collision-free
  one-way function: `bcryptGenerateFromPassword` is an injective function of
  the salted input and `bcryptCompareHashAndPassword` succeeds exactly on the
  matching input.  The repository's own concatenation logic
  (password bytes ++ salt bytes) is kept exactly;
* fallible Go returns become `Except` / a `Res` outcome type; an unguarded,
  failing interface type assertion (`x.(string)` on a missing or mistyped
  claim) becomes the explicit outcome `Res.panic`.
-/

namespace PersonalBackend

/-! ## Errors (`adapter/cerror`, `global` friendly messages) -/

/-- The user-facing friendly message attached to a `cerror.Error`
(the `global.FRIENDLY_*` constants; `blank` is the empty message). -/
inductive Friendly where
  | message
  | invalidUsnmePassword
  | emailNotVerified
  | tokenExpired
  | invalidToken
  | invalidEmail
  | duplicateEmail
  | blank
  deriving DecidableEq, Repr

/-- The machine-checkable error type of a `cerror.Error`
(`cerror.TYPE_*`; `typeNone` when the code sets none). -/
inductive CType where
  | typeNone
  | typeUnauthorized
  | typeExpired
  | typeNotFound
  deriving DecidableEq, Repr

/-- A `cerror.Error`: the source tag written at the creation site, the
friendly message, and the optional type. -/
structure CError where
  tag : String
  friendly : Friendly
  ctype : CType
  deriving DecidableEq, Repr

/-- Error of the `dgrijalva/jwt-go` parser: signature/structure failure
(`ValidationErrorSignatureInvalid` etc.) or expiry
(`ValidationErrorExpired`). -/
inductive ParseErr where
  | invalid
  | expired
  deriving DecidableEq, Repr

/-- An error value returned by a usecase operation: a repository/usecase
`cerror`, a raw jwt-go error propagated unchanged (`RefreshToken` line 139),
a raw Redis error, or a raw mail-helper error. -/
inductive Err where
  | cerr (e : CError)
  | jwt (e : ParseErr)
  | redis (key : String)
  | mail (detail : String)
  deriving DecidableEq, Repr

/-- Outcome of a usecase operation: a value, an error value, or a runtime
panic from an unguarded interface type assertion. -/
inductive Res (α : Type) where
  | ok (a : α)
  | err (e : Err)
  | panic
  deriving DecidableEq, Repr

/-! ## Tokens (`helper.JWTHelper` over `dgrijalva/jwt-go`) -/

/-- A JSON claim value as jwt-go's `MapClaims` yields it after decoding:
strings, numbers (JSON numbers decode to `float64`; the code only ever
stores and reads Unix-second integers, embedded as `Int`), and booleans. -/
inductive CVal where
  | str (v : String)
  | num (v : Int)
  | boolean (v : Bool)
  deriving DecidableEq, Repr

/-- A claim set (`jwt.MapClaims`): association list keyed by claim name.
Every mint site in the code assigns each key once. -/
abbrev Claims := List (String × CVal)

/-- Claim lookup, `payload["k"]`: the first binding of the key, if any. -/
def claimLookup (claims : Claims) (key : String) : Option CVal :=
  (claims.find? (fun kv => kv.1 == key)).map (fun kv => kv.2)

/-- A well-formed signed token string, embedded as its content: the claim
set and the symmetric key that signed it (`SignedString([]byte(secret))`).
Two token strings are equal iff these agree. -/
structure Tok where
  claims : Claims
  secret : String
  deriving DecidableEq, Repr

/-- A token-string-valued field ("" or a well-formed token):
`none` is the blank string. -/
abbrev TokStr := Option Tok

/-- `helper.JWTHelper.CreateToken` / `jwt.NewWithClaims(HS256, claims).
SignedString(secret)`: deterministic mint of a signed token. -/
def CreateToken (claims : Claims) (secret : String) : Tok :=
  ⟨claims, secret⟩

/-- `helper.JWTHelper.ParseToken` / `parseJWT`, i.e.
`jwt.ParseWithClaims(tokenString, claims, keyfunc)` with the configured
secret: rejects a token signed under another key as invalid, and —
because `MapClaims.Valid()` runs `VerifyExpiresAt` on every parse — rejects
a token whose numeric `exp` claim is before `now` with the expiry error
(the comment at `RefreshToken`: the parse error "including expiration
error").  A missing or non-numeric `exp` claim passes validation
(`VerifyExpiresAt` is not required). -/
def ParseToken (t : Tok) (secret : String) (now : Int) : Except ParseErr Claims :=
  if t.secret = secret then
    match claimLookup t.claims "exp" with
    | some (CVal.num e) => if now > e then Except.error ParseErr.expired else Except.ok t.claims
    | _ => Except.ok t.claims
  else Except.error ParseErr.invalid

/-! ## Secret hasher (`hashPassword` / `comparePassword`, bcrypt idealized) -/

/-- Byte strings (Go `[]byte` / `string` contents). -/
abbrev Bytes := List Nat

/-- `bcrypt.GenerateFromPassword(salted, bcrypt.MinCost)`, idealized as an
injective one-way function of the salted input (the leading `36` is the
`'$'` that opens every bcrypt hash string). -/
def bcryptGenerateFromPassword (salted : Bytes) : Bytes :=
  36 :: salted

/-- `bcrypt.CompareHashAndPassword(stored, salted)`: succeeds exactly when
`stored` is the hash of `salted` (idealized: no collisions). -/
def bcryptCompareHashAndPassword (stored salted : Bytes) : Bool :=
  stored = bcryptGenerateFromPassword salted

/-- `AuthUsecase.hashPassword`: appends password bytes then salt bytes and
bcrypt-hashes the concatenation. -/
def hashPassword (password salt : Bytes) : Bytes :=
  bcryptGenerateFromPassword (password ++ salt)

/-- `AuthUsecase.comparePassword`: appends candidate bytes then salt bytes
and compares against the stored hash; `true` is the `ok` result. -/
def comparePassword (passwordInput salt storedPassword : Bytes) : Bool :=
  bcryptCompareHashAndPassword storedPassword (passwordInput ++ salt)

/-! ## Domain records and repositories -/

/-- `domain.Account` (newest revision: with `IsVerified`, `EmailToken`,
`PasswordToken`).  `password` holds the stored bcrypt hash bytes
(Go round-trips it through `string`). -/
structure Account where
  accountID : String
  password : Bytes
  email : String
  salt : Bytes
  emailToken : TokStr
  isVerified : Bool
  passwordToken : TokStr
  deriving DecidableEq, Repr

/-- `domain.Profile` (display data owned by an account). -/
structure Profile where
  profileID : String
  fullName : String
  accountID : String
  deriving DecidableEq, Repr

/-- `domain.AccountFilter`: by email and/or account id; "" means the
field is not filtered on. -/
structure AccountFilter where
  email : String
  accountID : String
  deriving DecidableEq, Repr

/-- A row matches the filter when every non-blank filter field equals the
row's (the `WHERE` clauses `MySqlUserRepository.GetAccount` adds). -/
def matchesFilter (flt : AccountFilter) (a : Account) : Bool :=
  (flt.email == "" || a.email == flt.email) &&
    (flt.accountID == "" || a.accountID == flt.accountID)

/-- `MySqlUserRepository.GetAccount`: the first matching row, or the
`GA02` error wrapping `sql.ErrNoRows` when no row matches. -/
def getAccount (db : List Account) (flt : AccountFilter) : Except CError Account :=
  match db.find? (matchesFilter flt) with
  | some a => Except.ok a
  | none => Except.error ⟨"GA02", Friendly.message, CType.typeNone⟩

/-- `MySqlUserRepository.InsertAccount`: a fresh UUID when `AccountID` is
blank; the `IA03` duplicate-email error on a unique-key violation
(MySQL error 1062), else the row appended.  Returns the inserted row as
the repository does. -/
def insertAccount (db : List Account) (newUUID : String) (account : Account) :
    Except CError (Account × List Account) :=
  let account :=
    if account.accountID == "" then { account with accountID := newUUID } else account
  if db.any (fun a => a.email == account.email) then
    Except.error ⟨"IA03", Friendly.duplicateEmail, CType.typeNone⟩
  else
    Except.ok (account, db ++ [account])

/-- `MySqlUserRepository.UpdateIsVerified`: one transactional `UPDATE` of
the verified flag keyed by account id. -/
def updateIsVerified (db : List Account) (accountID : String) (v : Bool) : List Account :=
  db.map (fun a => if a.accountID == accountID then { a with isVerified := v } else a)

/-- `MySqlUserRepository.UpdateSaltAndPassword`: one transactional `UPDATE`
of salt and password hash keyed by account id. -/
def updateSaltAndPassword (db : List Account) (accountID : String)
    (salt password : Bytes) : List Account :=
  db.map (fun a =>
    if a.accountID == accountID then { a with salt := salt, password := password } else a)

/-- `MySqlUserRepository.UpdatePasswordToken`: one transactional `UPDATE`
of the stored reset token keyed by account id (`none` writes the blank
string). -/
def updatePasswordToken (db : List Account) (accountID : String) (tok : TokStr) :
    List Account :=
  db.map (fun a =>
    if a.accountID == accountID then { a with passwordToken := tok } else a)

/-- `domain.ProfileFilter` lookup of the profile repository
(`GetProfile(ProfileFilter{AccountID})`; the MySQL implementation follows
the account repository's shape: first row or a no-rows error). -/
def getProfile (db : List Profile) (accountID : String) : Except CError Profile :=
  match db.find? (fun p => p.accountID == accountID) with
  | some p => Except.ok p
  | none => Except.error ⟨"GP02", Friendly.message, CType.typeNone⟩

/-- `IProfileRepository.InsertProfile`: appends the row. -/
def insertProfile (db : List Profile) (profile : Profile) : List Profile :=
  db ++ [profile]

/-! ## Session store (`helper.RedisHelper`, spec §4.3) -/

/-- The Redis session store: session id → the stored token value.
Modelled from the spec: `helper.RedisHelper` is not among the staged
files; §4.3 gives `put` (overwrite allowed), `get` (empty means
expired-or-revoked-or-never-existed) and `delete` (immediate revocation). -/
abbrev SessionStore := List (String × Tok)

/-- `RedisHelper.Get`: the current value at the key, `none` for the empty
string Redis returns when the key is absent (expired or revoked). -/
def redisGet (store : SessionStore) (key : String) : Option Tok :=
  (store.find? (fun kv => kv.1 == key)).map (fun kv => kv.2)

/-- `RedisHelper.Set`: records the session; the newest binding shadows any
older one (overwrite = idempotent re-arm). -/
def redisSet (store : SessionStore) (key : String) (v : Tok) : SessionStore :=
  (key, v) :: store

/-- `RedisHelper.Delete`: removes every binding of the key. -/
def redisDelete (store : SessionStore) (key : String) : SessionStore :=
  store.filter (fun kv => kv.1 != key)

/-! ## The world and the operation environment -/

/-- The shared mutable state the usecase reaches: the `account` table, the
`profile` table, and the Redis session store. -/
structure World where
  accounts : List Account
  profiles : List Profile
  redis : SessionStore
  deriving DecidableEq, Repr

/-- Per-run environment of an operation: the clock (`time.Now().Unix()`),
the configured signing secret (`JWT_SECRET`), fresh randomness
(`generateSalt`, `uuid.New()`), and the injected outcomes of the external
collaborators (mail helper, Redis writes and deletes). -/
structure Env where
  now : Int
  secret : String
  freshSalt : Bytes
  newAccountUUID : String
  emailTokenUUID : String
  accessUUID : String
  refreshUUID : String
  mailErr : Option Err
  failSet : String → Bool
  failDelete : String → Bool

/-! ## Usecase operations (`AuthUsecase`, newest revision) -/

/-- Token pair returned to the delivery layer (`helper.JWTWrapper`). -/
structure JWTWrapper where
  accessToken : Tok
  refreshToken : Tok
  refreshTokenExpTime : Int
  deriving DecidableEq, Repr

/-- `AuthUsecase.createTokenPair`: mints an access token (15 min expiry,
fresh `access_uuid`) and a refresh token (1 h expiry, fresh
`refresh_uuid`) and registers both session ids in Redis — the access id
first; a failing `Set` aborts with the raw Redis error, leaving any
earlier write in place. -/
def createTokenPair (w : World) (env : Env) (account : Account) (profile : Profile) :
    Res JWTWrapper × World :=
  let accessTokenClaims : Claims :=
    [("authorized", CVal.boolean true),
     ("account_id", CVal.str account.accountID),
     ("access_uuid", CVal.str env.accessUUID),
     ("email", CVal.str account.email),
     ("exp", CVal.num (env.now + 15 * 60)),
     ("full_name", CVal.str profile.fullName)]
  let rtExp : Int := env.now + 60 * 60
  let refreshTokenClaims : Claims :=
    [("account_id", CVal.str account.accountID),
     ("refresh_uuid", CVal.str env.refreshUUID),
     ("exp", CVal.num rtExp)]
  let accessTok := CreateToken accessTokenClaims env.secret
  let refreshTok := CreateToken refreshTokenClaims env.secret
  if env.failSet env.accessUUID then
    (Res.err (Err.redis env.accessUUID), w)
  else
    let w1 := { w with redis := redisSet w.redis env.accessUUID accessTok }
    if env.failSet env.refreshUUID then
      (Res.err (Err.redis env.refreshUUID), w1)
    else
      let w2 := { w1 with redis := redisSet w1.redis env.refreshUUID refreshTok }
      (Res.ok ⟨accessTok, refreshTok, rtExp⟩, w2)

/-- `AuthUsecase.Login`: fetch the account by email, verify the password
(`LGU03` Unauthorized on mismatch), reject an unverified account
(`LGU04` EmailNotVerified), then fetch the profile and mint+register a
token pair.  `account.password` carries the caller's plaintext password
bytes. -/
def Login (w : World) (env : Env) (account : Account) : Res JWTWrapper × World :=
  match getAccount w.accounts ⟨account.email, ""⟩ with
  | Except.error e => (Res.err (Err.cerr e), w)
  | Except.ok regAccount =>
    if ¬ comparePassword account.password regAccount.salt regAccount.password then
      (Res.err (Err.cerr ⟨"LGU03", Friendly.invalidUsnmePassword, CType.typeUnauthorized⟩), w)
    else if ¬ regAccount.isVerified then
      (Res.err (Err.cerr ⟨"LGU04", Friendly.emailNotVerified, CType.typeNone⟩), w)
    else
      match getProfile w.profiles regAccount.accountID with
      | Except.error e => (Res.err (Err.cerr e), w)
      | Except.ok regProfile => createTokenPair w env regAccount regProfile

/-- `AuthUsecase.SignUp`: generate a salt, hash the password, mint the
email-verification token (`account_id` a fresh UUID, the email, 15 min
expiry), insert the account (duplicate email → `IA03`), insert the linked
profile, then send the verification mail; a mail failure is returned after
both rows are already persisted. -/
def SignUp (w : World) (env : Env) (account : Account) (profile : Profile) :
    Res (Account × Profile) × World :=
  let salt := env.freshSalt
  let hashed := hashPassword account.password salt
  let emailTokenClaims : Claims :=
    [("account_id", CVal.str env.emailTokenUUID),
     ("email", CVal.str account.email),
     ("exp", CVal.num (env.now + 15 * 60))]
  let emailTok := CreateToken emailTokenClaims env.secret
  let account := { account with
    salt := salt, password := hashed, emailToken := some emailTok }
  match insertAccount w.accounts env.newAccountUUID account with
  | Except.error e => (Res.err (Err.cerr e), w)
  | Except.ok (insertedAccount, accounts1) =>
    let profile := { profile with accountID := insertedAccount.accountID }
    let w2 := { w with
      accounts := accounts1, profiles := insertProfile w.profiles profile }
    match env.mailErr with
    | some e => (Res.err e, w2)
    | none => (Res.ok (insertedAccount, profile), w2)

/-- `AuthUsecase.RefreshToken`: parse (a parse error — expiry included — is
returned raw), assert `refresh_uuid` as a string (panic on a missing or
mistyped claim), treat an empty Redis lookup as `RTU00` TokenExpired,
assert `account_id`, fetch account and profile, then mint+register a fresh
pair.  The old refresh session is left as-is. -/
def RefreshToken (w : World) (env : Env) (refreshToken : Tok) : Res JWTWrapper × World :=
  match ParseToken refreshToken env.secret env.now with
  | Except.error e => (Res.err (Err.jwt e), w)
  | Except.ok mapClaims =>
    match claimLookup mapClaims "refresh_uuid" with
    | some (CVal.str refreshUUID) =>
      match redisGet w.redis refreshUUID with
      | none =>
        (Res.err (Err.cerr ⟨"RTU00", Friendly.tokenExpired, CType.typeExpired⟩), w)
      | some _ =>
        match claimLookup mapClaims "account_id" with
        | some (CVal.str accountID) =>
          match getAccount w.accounts ⟨"", accountID⟩ with
          | Except.error e => (Res.err (Err.cerr e), w)
          | Except.ok account =>
            match getProfile w.profiles accountID with
            | Except.error e => (Res.err (Err.cerr e), w)
            | Except.ok profile => createTokenPair w env account profile
        | _ => (Res.panic, w)
    | _ => (Res.panic, w)

/-- `AuthUsecase.VerifyEmail`: parse (`VEA00` InvalidToken on failure),
assert `exp` as a number and `email` as a string (panic otherwise), check
expiry against now (`VEA02` TokenExpired), fetch the account by the
embedded email, set the verified flag. -/
def VerifyEmail (w : World) (env : Env) (token : Tok) : Res Unit × World :=
  match ParseToken token env.secret env.now with
  | Except.error _ =>
    (Res.err (Err.cerr ⟨"VEA00", Friendly.invalidToken, CType.typeNone⟩), w)
  | Except.ok payload =>
    match claimLookup payload "exp" with
    | some (CVal.num expire) =>
      match claimLookup payload "email" with
      | some (CVal.str email) =>
        if env.now > expire then
          (Res.err (Err.cerr ⟨"VEA02", Friendly.tokenExpired, CType.typeNone⟩), w)
        else
          match getAccount w.accounts ⟨email, ""⟩ with
          | Except.error e => (Res.err (Err.cerr e), w)
          | Except.ok account =>
            (Res.ok (), { w with accounts := updateIsVerified w.accounts account.accountID true })
      | _ => (Res.panic, w)
    | _ => (Res.panic, w)

/-- `AuthUsecase.ResetPassword`: mint the reset token (`email`, 24 h
expiry), fetch the account (a nil account — the error itself is dropped —
→ `RPA00` NotFound), reject an unverified account (`RPA01`), persist the
token onto `Account.PasswordToken`, then send the reset mail (a mail
failure is returned after the token is already persisted). -/
def ResetPassword (w : World) (env : Env) (email : String) : Res Unit × World :=
  let claims : Claims :=
    [("email", CVal.str email), ("exp", CVal.num (env.now + 24 * 60 * 60))]
  let token := CreateToken claims env.secret
  match getAccount w.accounts ⟨email, ""⟩ with
  | Except.ok account =>
    if ¬ account.isVerified then
      (Res.err (Err.cerr ⟨"RPA01", Friendly.emailNotVerified, CType.typeNone⟩), w)
    else
      let w1 := { w with
        accounts := updatePasswordToken w.accounts account.accountID (some token) }
      match env.mailErr with
      | some e => (Res.err e, w1)
      | none => (Res.ok (), w1)
  | Except.error _ =>
    (Res.err (Err.cerr ⟨"RPA00", Friendly.blank, CType.typeNotFound⟩), w)

/-- `AuthUsecase.ChangePassword`: parse (`CPW00` InvalidToken), assert
`exp` and `email` (panic otherwise), check expiry (`CPW01`), fetch the
account by the embedded email (`CPW02` NotFound), require the presented
token string to equal the stored `PasswordToken` exactly (`CPW03`
InvalidToken), then generate a fresh salt, persist the new hash, and clear
`PasswordToken` to blank. -/
def ChangePassword (w : World) (env : Env) (token : Tok) (password : Bytes) :
    Res Unit × World :=
  match ParseToken token env.secret env.now with
  | Except.error _ =>
    (Res.err (Err.cerr ⟨"CPW00", Friendly.invalidToken, CType.typeNone⟩), w)
  | Except.ok payload =>
    match claimLookup payload "exp" with
    | some (CVal.num expire) =>
      match claimLookup payload "email" with
      | some (CVal.str email) =>
        if env.now > expire then
          (Res.err (Err.cerr ⟨"CPW01", Friendly.tokenExpired, CType.typeNone⟩), w)
        else
          match getAccount w.accounts ⟨email, ""⟩ with
          | Except.error _ =>
            (Res.err (Err.cerr ⟨"CPW02", Friendly.invalidEmail, CType.typeNotFound⟩), w)
          | Except.ok account =>
            if some token ≠ account.passwordToken then
              (Res.err (Err.cerr ⟨"CPW03", Friendly.invalidToken, CType.typeNone⟩), w)
            else
              let salt := env.freshSalt
              let hashed := hashPassword password salt
              let accounts1 := updateSaltAndPassword w.accounts account.accountID salt hashed
              let accounts2 := updatePasswordToken accounts1 account.accountID none
              (Res.ok (), { w with accounts := accounts2 })
      | _ => (Res.panic, w)
    | _ => (Res.panic, w)

/-- `AuthUsecase.SignOut`: assert `access_uuid` of the (already parsed)
access token, delete it from Redis (`SOU00` on failure, returned before
the refresh deletion is attempted), then assert `refresh_uuid` of the
refresh token and delete it (`SOU01` on failure). -/
def SignOut (w : World) (env : Env) (accessToken refreshToken : Tok) : Res Unit × World :=
  match claimLookup accessToken.claims "access_uuid" with
  | some (CVal.str atUUID) =>
    if env.failDelete atUUID then
      (Res.err (Err.cerr ⟨"SOU00", Friendly.message, CType.typeNone⟩), w)
    else
      let w1 := { w with redis := redisDelete w.redis atUUID }
      match claimLookup refreshToken.claims "refresh_uuid" with
      | some (CVal.str rtUUID) =>
        if env.failDelete rtUUID then
          (Res.err (Err.cerr ⟨"SOU01", Friendly.message, CType.typeNone⟩), w1)
        else
          (Res.ok (), { w1 with redis := redisDelete w1.redis rtUUID })
      | _ => (Res.panic, w1)
  | _ => (Res.panic, w)

/-! ## Helper lemmas -/

/-- A row-wise DB update that does not touch the filtered columns commutes
with `getAccount`: the found row is the updated image of the row found
before. -/
theorem getAccount_map (db : List Account) (flt : AccountFilter) (acc : Account)
    (f : Account → Account)
    (hpres : ∀ a, matchesFilter flt (f a) = matchesFilter flt a)
    (h : getAccount db flt = Except.ok acc) :
    getAccount (db.map f) flt = Except.ok (f acc) := by
  unfold getAccount at h ⊢
  rw [List.find?_map]
  have hcomp : (matchesFilter flt ∘ f) = matchesFilter flt := funext hpres
  rw [hcomp]
  cases hfind : db.find? (matchesFilter flt) with
  | none => rw [hfind] at h; exact absurd h (by simp)
  | some a =>
    rw [hfind] at h
    cases h
    simp [hfind]

/-- Deleting a key from the session store makes its lookup empty. -/
theorem redisGet_redisDelete_self (store : SessionStore) (key : String) :
    redisGet (redisDelete store key) key = none := by
  unfold redisGet redisDelete
  rw [Option.map_eq_none', List.find?_eq_none]
  intro kv hkv
  rw [List.mem_filter] at hkv
  simp only [bne_iff_ne, ne_eq, beq_iff_eq] at hkv ⊢
  exact hkv.2

/-- `updatePasswordToken` only rewrites the `password_token` column, so the
email/account-id filter is unaffected. -/
theorem matchesFilter_updatePasswordToken (flt : AccountFilter) (id : String)
    (tok : TokStr) (a : Account) :
    matchesFilter flt (if a.accountID == id then { a with passwordToken := tok } else a) =
      matchesFilter flt a := by
  by_cases h : a.accountID == id
  · rw [if_pos h]
    rfl
  · rw [if_neg h]

/-- `updateSaltAndPassword` only rewrites salt and password, so the
email/account-id filter is unaffected. -/
theorem matchesFilter_updateSaltAndPassword (flt : AccountFilter) (id : String)
    (salt password : Bytes) (a : Account) :
    matchesFilter flt
        (if a.accountID == id then { a with salt := salt, password := password } else a) =
      matchesFilter flt a := by
  by_cases h : a.accountID == id
  · rw [if_pos h]
    rfl
  · rw [if_neg h]

/-! ## Claim theorems -/

/-- **C4.** For all passwords `p` and salts `s`, verifying `p` against the
hash derived from `(p, s)` succeeds, and verifying any `p' ≠ p` against
that hash fails (bcrypt idealized as collision-free; the repository's own
password-then-salt concatenation is exact). -/
theorem comparePassword_hashPassword_iff (p s : Bytes) :
    comparePassword p s (hashPassword p s) = true ∧
      ∀ p' : Bytes, p' ≠ p → comparePassword p' s (hashPassword p s) = false := by
  constructor
  · simp [comparePassword, hashPassword, bcryptCompareHashAndPassword,
      bcryptGenerateFromPassword]
  · intro p' hne
    simp only [comparePassword, hashPassword, bcryptCompareHashAndPassword,
      bcryptGenerateFromPassword, decide_eq_false_iff_not]
    intro h
    exact hne (List.append_cancel_right (List.cons_injective h).symm)

/-- Witness for C4 at `p = [1]`, `s = [2]`, `p' = [3]`. -/
theorem comparePassword_hashPassword_iff_witness :
    comparePassword [1] [2] (hashPassword [1] [2]) = true ∧
      comparePassword [3] [2] (hashPassword [1] [2]) = false :=
  ⟨(comparePassword_hashPassword_iff [1] [2]).1,
    (comparePassword_hashPassword_iff [1] [2]).2 [3] (by decide)⟩

/-- **C3 (amended).** `ChangePassword` never touches the Session Store:
whatever it returns, the Redis component of the state is unchanged, so
access/refresh sessions issued before a password change stay registered
until their TTL or `SignOut`. -/
theorem ChangePassword_preserves_sessions (w : World) (env : Env) (token : Tok)
    (password : Bytes) :
    (ChangePassword w env token password).2.redis = w.redis := by
  unfold ChangePassword
  repeat' split <;> try rfl

/-- **C10.** In `SignOut`, a failing Redis delete of the access session id
returns the `SOU00` error with the state unchanged: the refresh session id
is never deleted, so the refresh session stays registered. -/
theorem SignOut_access_delete_failure (w : World) (env : Env)
    (accessToken refreshToken : Tok) (atUUID : String)
    (hat : claimLookup accessToken.claims "access_uuid" = some (CVal.str atUUID))
    (hfail : env.failDelete atUUID = true) :
    SignOut w env accessToken refreshToken =
      (Res.err (Err.cerr ⟨"SOU00", Friendly.message, CType.typeNone⟩), w) := by
  unfold SignOut
  rw [hat]
  simp [hfail]

/-- **C5.** `Login` with the correct password on an unverified account
returns the `LGU04` EmailNotVerified error and leaves the state — in
particular the Session Store — unchanged: no token pair is minted and no
session is registered. -/
theorem Login_unverified_email (w : World) (env : Env) (account regAccount : Account)
    (hacc : getAccount w.accounts ⟨account.email, ""⟩ = Except.ok regAccount)
    (hpw : comparePassword account.password regAccount.salt regAccount.password = true)
    (hver : regAccount.isVerified = false) :
    Login w env account =
      (Res.err (Err.cerr ⟨"LGU04", Friendly.emailNotVerified, CType.typeNone⟩), w) := by
  unfold Login
  rw [hacc]
  simp [hpw, hver]

/-! ## Concrete fixtures for witnesses and counterexamples -/

/-- A reset token for `a@x.com` minted at time `0` under secret `"k"`
(24 h expiry, as `ResetPassword` mints it). -/
def tokA : Tok :=
  CreateToken [("email", CVal.str "a@x.com"), ("exp", CVal.num 86400)] "k"

/-- A differently-timestamped reset token for the same address: parses and
is unexpired, but is not the one on file. -/
def tokStale : Tok :=
  CreateToken [("email", CVal.str "a@x.com"), ("exp", CVal.num 100000)] "k"

/-- A refresh token of account `id1` whose session id `sess` is live. -/
def sessionTok : Tok :=
  CreateToken
    [("account_id", CVal.str "id1"), ("refresh_uuid", CVal.str "sess"),
     ("exp", CVal.num 3600)] "k"

/-- A verified account whose stored reset token is `tokA`. -/
def accA : Account :=
  ⟨"id1", hashPassword [7] [1], "a@x.com", [1], none, true, some tokA⟩

/-- An unverified account with password bytes `[7]` hashed under salt `[1]`. -/
def accUnv : Account :=
  ⟨"id2", hashPassword [7] [1], "b@x.com", [1], none, false, none⟩

/-- World holding just the verified account. -/
def wA : World := ⟨[accA], [], []⟩

/-- World holding the verified account and a live refresh session of it. -/
def wSess : World := ⟨[accA], [], [("sess", sessionTok)]⟩

/-- World holding just the unverified account. -/
def wUnv : World := ⟨[accUnv], [], []⟩

/-- A benign environment: clock at `0`, secret `"k"`, no injected
failures. -/
def envA : Env :=
  ⟨0, "k", [2], "newAcc", "newEmailTok", "newAccess", "newRefresh", none,
    fun _ => false, fun _ => false⟩

/-- Environment whose Redis delete fails exactly on key `au1`. -/
def envDelFail : Env :=
  ⟨0, "k", [2], "newAcc", "newEmailTok", "newAccess", "newRefresh", none,
    fun _ => false, fun s => s == "au1"⟩

/-- A parsed access token carrying session id `au1`. -/
def atTok : Tok :=
  CreateToken [("access_uuid", CVal.str "au1"), ("exp", CVal.num 900)] "k"

/-- A parsed refresh token carrying session id `ru1`. -/
def rtTok : Tok :=
  CreateToken [("refresh_uuid", CVal.str "ru1"), ("exp", CVal.num 3600)] "k"

/-- `Login`'s argument: the caller-supplied email and plaintext password
bytes of `accUnv`. -/
def loginReq : Account := ⟨"", [7], "b@x.com", [], none, false, none⟩

/-! ## More claim theorems -/

/-- **C3 (counterexample).** A successful `ChangePassword` run on account
`id1` — reset token on file, fresh and signature-valid — leaves the
previously issued refresh session `sess` of that same account registered
in the Session Store: sessions are not invalidated on password change. -/
theorem ChangePassword_leaves_session_registered :
    (ChangePassword wSess envA tokA [9]).1 = Res.ok () ∧
      redisGet (ChangePassword wSess envA tokA [9]).2.redis "sess" = some sessionTok := by
  constructor <;> rfl

/-- **C1.** A reset token that is signature-valid and unexpired but is not
string-equal to the `PasswordToken` on file for its email is rejected with
the `CPW03` InvalidToken error and the state — salt, hash and
`PasswordToken` included — is unchanged. -/
theorem ChangePassword_stale_token_rejected
    (w : World) (env : Env) (t : Tok) (password : Bytes) (acc : Account)
    (e : Int) (em : String)
    (hsig : t.secret = env.secret)
    (hexp : claimLookup t.claims "exp" = some (CVal.num e))
    (hfresh : ¬ env.now > e)
    (hem : claimLookup t.claims "email" = some (CVal.str em))
    (hacc : getAccount w.accounts ⟨em, ""⟩ = Except.ok acc)
    (hne : some t ≠ acc.passwordToken) :
    ChangePassword w env t password =
      (Res.err (Err.cerr ⟨"CPW03", Friendly.invalidToken, CType.typeNone⟩), w) := by
  simp [ChangePassword, ParseToken, hsig, hexp, hfresh, hem, hacc, hne]

/-- Witness for C1: `tokStale` parses, is unexpired at time `0`, names
`a@x.com`, and differs from the stored `tokA`; `ChangePassword` rejects it
and leaves the world unchanged. -/
theorem ChangePassword_stale_token_rejected_witness :
    ChangePassword wA envA tokStale [9] =
      (Res.err (Err.cerr ⟨"CPW03", Friendly.invalidToken, CType.typeNone⟩), wA) :=
  ChangePassword_stale_token_rejected wA envA tokStale [9] accA 100000 "a@x.com"
    rfl rfl (by decide) rfl rfl (by decide)

/-- Witness for C10: with the delete of access session `au1` failing,
`SignOut` returns `SOU00` and the refresh session is never deleted. -/
theorem SignOut_access_delete_failure_witness :
    SignOut wSess envDelFail atTok rtTok =
      (Res.err (Err.cerr ⟨"SOU00", Friendly.message, CType.typeNone⟩), wSess) :=
  SignOut_access_delete_failure wSess envDelFail atTok rtTok "au1" rfl (by decide)

/-- Witness for C5: correct password, unverified account `b@x.com`:
`Login` returns EmailNotVerified and registers no session. -/
theorem Login_unverified_email_witness :
    Login wUnv envA loginReq =
      (Res.err (Err.cerr ⟨"LGU04", Friendly.emailNotVerified, CType.typeNone⟩), wUnv) :=
  Login_unverified_email wUnv envA loginReq accUnv rfl (by decide) rfl

/-- A signature-valid token whose `exp` (100) is already past. -/
def tokExpired : Tok :=
  CreateToken [("email", CVal.str "a@x.com"), ("exp", CVal.num 100)] "k"

/-- A benign environment with the clock at `200`. -/
def envLate : Env :=
  ⟨200, "k", [2], "newAcc", "newEmailTok", "newAccess", "newRefresh", none,
    fun _ => false, fun _ => false⟩

/-- **C2 (counterexample).** A token signed under the configured secret
`"k"` whose expiry claim (100) is before now (200) is *not* accepted by
the parse operation: `ParseToken` returns the expiry error itself, and
`RefreshToken` propagates that parse error without ever reaching its own
Session-Store expiry check. -/
theorem ParseToken_expired_returns_error :
    ParseToken tokExpired "k" 200 ≠ Except.ok tokExpired.claims ∧
      ParseToken tokExpired "k" 200 = Except.error ParseErr.expired ∧
      RefreshToken wA envLate tokExpired =
        (Res.err (Err.jwt ParseErr.expired), wA) := by
  refine ⟨?_, rfl, rfl⟩
  intro h
  rw [show ParseToken tokExpired "k" 200 = Except.error ParseErr.expired from rfl] at h
  exact Except.noConfusion h

/-- **C2 (amended).** For every token whose signature verifies under the
configured secret but whose numeric expiry claim is in the past, the
codec's parse operation itself fails with the expiry error — expiry is
enforced at parse, not only by the caller's later comparison — and
`RefreshToken` returns that parse error unchanged. -/
theorem ParseToken_rejects_expired (w : World) (env : Env) (t : Tok) (e : Int)
    (hsig : t.secret = env.secret)
    (hexp : claimLookup t.claims "exp" = some (CVal.num e))
    (hpast : env.now > e) :
    ParseToken t env.secret env.now = Except.error ParseErr.expired ∧
      RefreshToken w env t = (Res.err (Err.jwt ParseErr.expired), w) := by
  have h1 : ParseToken t env.secret env.now = Except.error ParseErr.expired := by
    simp [ParseToken, hsig, hexp, hpast]
  exact ⟨h1, by simp [RefreshToken, h1]⟩

/-- Witness for C2's amended statement at `tokExpired`, clock `200`. -/
theorem ParseToken_rejects_expired_witness :
    ParseToken tokExpired envLate.secret envLate.now = Except.error ParseErr.expired ∧
      RefreshToken wA envLate tokExpired = (Res.err (Err.jwt ParseErr.expired), wA) :=
  ParseToken_rejects_expired wA envLate tokExpired 100 rfl rfl (by decide)

/-- **C6.** A successful `SignOut` deletes the refresh token's session id,
so a subsequent `RefreshToken` presenting the same (signature-valid,
unexpired) refresh token finds the Session Store lookup empty and returns
the `RTU00` TokenExpired error, leaving the state unchanged. -/
theorem SignOut_then_RefreshToken_expired
    (w : World) (env env2 : Env) (acT rfT : Tok) (atU rtU : String) (e : Int)
    (hat : claimLookup acT.claims "access_uuid" = some (CVal.str atU))
    (hrt : claimLookup rfT.claims "refresh_uuid" = some (CVal.str rtU))
    (hf1 : env.failDelete atU = false)
    (hf2 : env.failDelete rtU = false)
    (hsig : rfT.secret = env2.secret)
    (hexp : claimLookup rfT.claims "exp" = some (CVal.num e))
    (hfresh : ¬ env2.now > e) :
    (SignOut w env acT rfT).1 = Res.ok () ∧
      RefreshToken (SignOut w env acT rfT).2 env2 rfT =
        (Res.err (Err.cerr ⟨"RTU00", Friendly.tokenExpired, CType.typeExpired⟩),
          (SignOut w env acT rfT).2) := by
  have hso : SignOut w env acT rfT =
      (Res.ok (), { w with redis := redisDelete (redisDelete w.redis atU) rtU }) := by
    simp [SignOut, hat, hrt, hf1, hf2]
  rw [hso]
  refine ⟨rfl, ?_⟩
  have hget : redisGet (redisDelete (redisDelete w.redis atU) rtU) rtU = none :=
    redisGet_redisDelete_self _ _
  simp [RefreshToken, ParseToken, hsig, hexp, hfresh, hrt, hget]

/-- Witness for C6: sign out the pair `(au1, ru1)` from a store holding
session `ru1`, then present the refresh token again. -/
theorem SignOut_then_RefreshToken_expired_witness :
    (SignOut ⟨[accA], [], [("ru1", rtTok)]⟩ envA atTok rtTok).1 = Res.ok () ∧
      RefreshToken (SignOut ⟨[accA], [], [("ru1", rtTok)]⟩ envA atTok rtTok).2 envA rtTok =
        (Res.err (Err.cerr ⟨"RTU00", Friendly.tokenExpired, CType.typeExpired⟩),
          (SignOut ⟨[accA], [], [("ru1", rtTok)]⟩ envA atTok rtTok).2) :=
  SignOut_then_RefreshToken_expired ⟨[accA], [], [("ru1", rtTok)]⟩ envA envA atTok rtTok
    "au1" "ru1" 3600 rfl rfl rfl rfl rfl rfl (by decide)

/-- **C8.** If the verification-email send fails after `SignUp` has
persisted the account and the profile, `SignUp` returns the mail error
while both persisted rows remain: no compensating rollback. -/
theorem SignUp_mail_failure_keeps_rows
    (w : World) (env : Env) (account : Account) (profile : Profile) (e : Err)
    (hnodup : w.accounts.any (fun a => a.email == account.email) = false)
    (hmail : env.mailErr = some e) :
    (SignUp w env account profile).1 = Res.err e ∧
      ∃ insertedAccount : Account, ∃ insertedProfile : Profile,
        (SignUp w env account profile).2.accounts = w.accounts ++ [insertedAccount] ∧
          insertedAccount.email = account.email ∧
          (SignUp w env account profile).2.profiles = w.profiles ++ [insertedProfile] ∧
          insertedProfile.fullName = profile.fullName ∧
          insertedProfile.accountID = insertedAccount.accountID := by
  by_cases hid : account.accountID == ""
  · simp [SignUp, insertAccount, insertProfile, hid, hnodup, hmail]
  · simp [SignUp, insertAccount, insertProfile, hid, hnodup, hmail]

/-- Witness for C8: fresh email `c@x.com`, mail send failing with a
concrete error; the rows persist while `SignUp` errors. -/
theorem SignUp_mail_failure_keeps_rows_witness :
    (SignUp wA
        ⟨0, "k", [2], "newAcc", "newEmailTok", "newAccess", "newRefresh",
          some (Err.mail "smtp down"), fun _ => false, fun _ => false⟩
        ⟨"", [7], "c@x.com", [], none, false, none⟩ ⟨"", "Cee", ""⟩).1 =
        Res.err (Err.mail "smtp down") ∧
      ∃ insertedAccount : Account, ∃ insertedProfile : Profile,
        (SignUp wA
            ⟨0, "k", [2], "newAcc", "newEmailTok", "newAccess", "newRefresh",
              some (Err.mail "smtp down"), fun _ => false, fun _ => false⟩
            ⟨"", [7], "c@x.com", [], none, false, none⟩ ⟨"", "Cee", ""⟩).2.accounts =
            wA.accounts ++ [insertedAccount] ∧
          insertedAccount.email = "c@x.com" ∧
          (SignUp wA
              ⟨0, "k", [2], "newAcc", "newEmailTok", "newAccess", "newRefresh",
                some (Err.mail "smtp down"), fun _ => false, fun _ => false⟩
              ⟨"", [7], "c@x.com", [], none, false, none⟩ ⟨"", "Cee", ""⟩).2.profiles =
            wA.profiles ++ [insertedProfile] ∧
          insertedProfile.fullName = "Cee" ∧
          insertedProfile.accountID = insertedAccount.accountID :=
  SignUp_mail_failure_keeps_rows wA
    ⟨0, "k", [2], "newAcc", "newEmailTok", "newAccess", "newRefresh",
      some (Err.mail "smtp down"), fun _ => false, fun _ => false⟩
    ⟨"", [7], "c@x.com", [], none, false, none⟩ ⟨"", "Cee", ""⟩ (Err.mail "smtp down")
    (by decide) rfl

/-- A signature-valid token with no `exp` claim (passes parse; the
`exp` assertion in `VerifyEmail` then fails). -/
def tokNoExp : Tok := CreateToken [("email", CVal.str "a@x.com")] "k"

/-- A signature-valid, unexpired token with no `email` claim. -/
def tokNoEmail : Tok := CreateToken [("exp", CVal.num 1000)] "k"

/-- A signature-valid, unexpired token with no `refresh_uuid` claim. -/
def tokNoUUID : Tok :=
  CreateToken [("account_id", CVal.str "id1"), ("exp", CVal.num 1000)] "k"

/-- **C9.** Tokens that are validly signed under the configured secret but
lack a claim the code asserts unguardedly make `VerifyEmail`,
`ChangePassword` and `RefreshToken` panic instead of returning an error
value: each parses cleanly (`Except.ok`) yet the operation's outcome is
`Res.panic`, so these operations are not total over signature-valid
tokens. -/
theorem unguarded_claim_assertions_panic :
    ParseToken tokNoExp "k" 0 = Except.ok tokNoExp.claims ∧
      (VerifyEmail wA envA tokNoExp).1 = Res.panic ∧
      ParseToken tokNoEmail "k" 0 = Except.ok tokNoEmail.claims ∧
      (ChangePassword wA envA tokNoEmail [9]).1 = Res.panic ∧
      ParseToken tokNoUUID "k" 0 = Except.ok tokNoUUID.claims ∧
      (RefreshToken wA envA tokNoUUID).1 = Res.panic :=
  ⟨rfl, rfl, rfl, rfl, rfl, rfl⟩

/-! ## The double-reset scenario (C7) -/

/-- The reset token `ResetPassword` mints for `email` in environment
`env`: the email claim and a 24 h expiry, signed with the configured
secret. -/
def resetTok (email : String) (env : Env) : Tok :=
  CreateToken
    [("email", CVal.str email), ("exp", CVal.num (env.now + 24 * 60 * 60))] env.secret

/-- On a found, verified account, `ResetPassword` leaves the state with
that account's `PasswordToken` overwritten by the freshly minted token —
whether or not the reset mail goes out, since the token is persisted
before the send. -/
theorem ResetPassword_state (w : World) (env : Env) (email : String) (acc : Account)
    (hacc : getAccount w.accounts ⟨email, ""⟩ = Except.ok acc)
    (hver : acc.isVerified = true) :
    (ResetPassword w env email).2 =
      { w with accounts :=
          updatePasswordToken w.accounts acc.accountID (some (resetTok email env)) } := by
  unfold ResetPassword
  rw [hacc]
  simp only [hver, not_true_eq_false, if_false, resetTok, CreateToken]
  cases env.mailErr <;> rfl

/-- `getAccount` after `updatePasswordToken` keyed by the found account's
own id: the same row, with the token overwritten. -/
theorem getAccount_updatePasswordToken_self (db : List Account) (flt : AccountFilter)
    (acc : Account) (id : String) (tok : TokStr) (hid : acc.accountID = id)
    (h : getAccount db flt = Except.ok acc) :
    getAccount (updatePasswordToken db id tok) flt =
      Except.ok { acc with passwordToken := tok } := by
  subst hid
  have hmap := getAccount_map db flt acc
    (fun a => if a.accountID == acc.accountID then { a with passwordToken := tok } else a)
    (fun a => matchesFilter_updatePasswordToken flt acc.accountID tok a) h
  simp only [beq_self_eq_true, eq_self_iff_true, if_true] at hmap
  unfold updatePasswordToken
  exact hmap

/-- `getAccount` after `updateSaltAndPassword` keyed by the found
account's own id: the same row, with salt and hash overwritten. -/
theorem getAccount_updateSaltAndPassword_self (db : List Account) (flt : AccountFilter)
    (acc : Account) (id : String) (salt password : Bytes) (hid : acc.accountID = id)
    (h : getAccount db flt = Except.ok acc) :
    getAccount (updateSaltAndPassword db id salt password) flt =
      Except.ok { acc with salt := salt, password := password } := by
  subst hid
  have hmap := getAccount_map db flt acc
    (fun a =>
      if a.accountID == acc.accountID then { a with salt := salt, password := password }
      else a)
    (fun a => matchesFilter_updateSaltAndPassword flt acc.accountID salt password a) h
  simp only [beq_self_eq_true, eq_self_iff_true, if_true] at hmap
  unfold updateSaltAndPassword
  exact hmap

/-- Two reset mints at different clock readings are different token
strings (their expiry claims differ). -/
theorem resetTok_ne_of_now_ne (email : String) (env1 env2 : Env)
    (hnow : env1.now ≠ env2.now) : resetTok email env1 ≠ resetTok email env2 := by
  intro h
  have hc := congrArg (fun t => claimLookup t.claims "exp") h
  simp only [resetTok, CreateToken, claimLookup] at hc
  simp at hc
  omega

/-- **C7 (counterexample).** Two `ResetPassword` calls for the verified
account `a@x.com` within the same Unix second mint byte-identical tokens
(claims and signature are deterministic functions of email, clock second
and secret), so `ChangePassword` presenting the *first* minted token
succeeds instead of failing with InvalidToken. -/
theorem ResetPassword_same_second_first_token_accepted :
    (ResetPassword ⟨[{ accA with passwordToken := none }], [], []⟩ envA "a@x.com").1 =
        Res.ok () ∧
      (ResetPassword (ResetPassword ⟨[{ accA with passwordToken := none }], [], []⟩
            envA "a@x.com").2 envA "a@x.com").1 = Res.ok () ∧
      resetTok "a@x.com" envA = resetTok "a@x.com" envA ∧
      (ChangePassword
          (ResetPassword (ResetPassword ⟨[{ accA with passwordToken := none }], [], []⟩
              envA "a@x.com").2 envA "a@x.com").2
          envLate (resetTok "a@x.com" envA) [9]).1 = Res.ok () :=
  ⟨rfl, rfl, rfl, rfl⟩

/-- **C7 (amended).** When the two `ResetPassword` calls mint at
*different* clock seconds (so the two tokens differ), `ChangePassword`
with the first minted token fails with the `CPW03` InvalidToken error
(superseded by the second), while `ChangePassword` with the second
succeeds and leaves the account's `PasswordToken` cleared to blank. -/
theorem ResetPassword_twice_supersedes_first_token
    (w : World) (env1 env2 env3 : Env) (email : String) (acc : Account) (pw : Bytes)
    (hacc : getAccount w.accounts ⟨email, ""⟩ = Except.ok acc)
    (hver : acc.isVerified = true)
    (hs1 : env1.secret = env3.secret)
    (hs2 : env2.secret = env3.secret)
    (hnow : env1.now ≠ env2.now)
    (hfr1 : ¬ env3.now > env1.now + 86400)
    (hfr2 : ¬ env3.now > env2.now + 86400) :
    (ChangePassword (ResetPassword (ResetPassword w env1 email).2 env2 email).2 env3
          (resetTok email env1) pw).1 =
        Res.err (Err.cerr ⟨"CPW03", Friendly.invalidToken, CType.typeNone⟩) ∧
      (ChangePassword (ResetPassword (ResetPassword w env1 email).2 env2 email).2 env3
          (resetTok email env2) pw).1 = Res.ok () ∧
      ∃ accF : Account,
        getAccount (ChangePassword (ResetPassword (ResetPassword w env1 email).2 env2
              email).2 env3 (resetTok email env2) pw).2.accounts ⟨email, ""⟩ =
            Except.ok accF ∧
          accF.passwordToken = none := by
  have hw1 := ResetPassword_state w env1 email acc hacc hver
  have hacc1 : getAccount (updatePasswordToken w.accounts acc.accountID
          (some (resetTok email env1))) ⟨email, ""⟩ =
      Except.ok { acc with passwordToken := some (resetTok email env1) } :=
    getAccount_updatePasswordToken_self _ _ _ _ _ rfl hacc
  have hw2 := ResetPassword_state (ResetPassword w env1 email).2 env2 email
    { acc with passwordToken := some (resetTok email env1) } (by rw [hw1]; exact hacc1) hver
  have hacc2 : getAccount
        (ResetPassword (ResetPassword w env1 email).2 env2 email).2.accounts ⟨email, ""⟩ =
      Except.ok { acc with passwordToken := some (resetTok email env2) } := by
    rw [hw2, hw1]
    exact getAccount_updatePasswordToken_self _ _
      { acc with passwordToken := some (resetTok email env1) } _ _ rfl hacc1
  have hsig1 : (resetTok email env1).secret = env3.secret := hs1
  have hexp1 : claimLookup (resetTok email env1).claims "exp" =
      some (CVal.num (env1.now + 24 * 60 * 60)) := rfl
  have hem1 : claimLookup (resetTok email env1).claims "email" =
      some (CVal.str email) := rfl
  have hsig2 : (resetTok email env2).secret = env3.secret := hs2
  have hexp2 : claimLookup (resetTok email env2).claims "exp" =
      some (CVal.num (env2.now + 24 * 60 * 60)) := rfl
  have hem2 : claimLookup (resetTok email env2).claims "email" =
      some (CVal.str email) := rfl
  have htokne : resetTok email env1 ≠ resetTok email env2 :=
    resetTok_ne_of_now_ne email env1 env2 hnow
  refine ⟨?_, ?_, ?_⟩
  · simp [ChangePassword, ParseToken, hsig1, hexp1, hfr1, hem1, hacc2, htokne]
  · simp [ChangePassword, ParseToken, hsig2, hexp2, hfr2, hem2, hacc2]
  · have h2 : (ChangePassword (ResetPassword (ResetPassword w env1 email).2 env2
            email).2 env3 (resetTok email env2) pw).2.accounts =
        updatePasswordToken
          (updateSaltAndPassword
            (ResetPassword (ResetPassword w env1 email).2 env2 email).2.accounts
            ({ acc with passwordToken := some (resetTok email env2) } : Account).accountID
            env3.freshSalt (hashPassword pw env3.freshSalt))
          ({ acc with passwordToken := some (resetTok email env2) } : Account).accountID
          none := by
      simp [ChangePassword, ParseToken, hsig2, hexp2, hfr2, hem2, hacc2]
    rw [h2]
    exact ⟨_, getAccount_updatePasswordToken_self _ _
      { ({ acc with passwordToken := some (resetTok email env2) } : Account) with
        salt := env3.freshSalt, password := hashPassword pw env3.freshSalt }
      _ none rfl
      (getAccount_updateSaltAndPassword_self _ _ _ _ _ _ rfl hacc2), rfl⟩

/-- Witness for C7's amended statement: resets at seconds `0` and `1`,
change at second `10`. -/
theorem ResetPassword_twice_supersedes_first_token_witness :
    (ChangePassword (ResetPassword (ResetPassword
            ⟨[{ accA with passwordToken := none }], [], []⟩ envA "a@x.com").2
          ⟨1, "k", [2], "newAcc", "newEmailTok", "newAccess", "newRefresh", none,
            fun _ => false, fun _ => false⟩ "a@x.com").2
        ⟨10, "k", [3], "newAcc", "newEmailTok", "newAccess", "newRefresh", none,
          fun _ => false, fun _ => false⟩ (resetTok "a@x.com" envA) [9]).1 =
        Res.err (Err.cerr ⟨"CPW03", Friendly.invalidToken, CType.typeNone⟩) ∧
      (ChangePassword (ResetPassword (ResetPassword
              ⟨[{ accA with passwordToken := none }], [], []⟩ envA "a@x.com").2
            ⟨1, "k", [2], "newAcc", "newEmailTok", "newAccess", "newRefresh", none,
              fun _ => false, fun _ => false⟩ "a@x.com").2
          ⟨10, "k", [3], "newAcc", "newEmailTok", "newAccess", "newRefresh", none,
            fun _ => false, fun _ => false⟩
          (resetTok "a@x.com"
            ⟨1, "k", [2], "newAcc", "newEmailTok", "newAccess", "newRefresh", none,
              fun _ => false, fun _ => false⟩) [9]).1 = Res.ok () ∧
      ∃ accF : Account,
        getAccount (ChangePassword (ResetPassword (ResetPassword
                ⟨[{ accA with passwordToken := none }], [], []⟩ envA "a@x.com").2
              ⟨1, "k", [2], "newAcc", "newEmailTok", "newAccess", "newRefresh", none,
                fun _ => false, fun _ => false⟩ "a@x.com").2
            ⟨10, "k", [3], "newAcc", "newEmailTok", "newAccess", "newRefresh", none,
              fun _ => false, fun _ => false⟩
            (resetTok "a@x.com"
              ⟨1, "k", [2], "newAcc", "newEmailTok", "newAccess", "newRefresh", none,
                fun _ => false, fun _ => false⟩) [9]).2.accounts ⟨"a@x.com", ""⟩ =
            Except.ok accF ∧
          accF.passwordToken = none :=
  ResetPassword_twice_supersedes_first_token
    ⟨[{ accA with passwordToken := none }], [], []⟩ envA
    ⟨1, "k", [2], "newAcc", "newEmailTok", "newAccess", "newRefresh", none,
      fun _ => false, fun _ => false⟩
    ⟨10, "k", [3], "newAcc", "newEmailTok", "newAccess", "newRefresh", none,
      fun _ => false, fun _ => false⟩
    "a@x.com" { accA with passwordToken := none } [9]
    rfl rfl rfl rfl (by decide) (by decide) (by decide)

end PersonalBackend
